import Mathlib

/-!
Shallow embedding of the card-fraud demo: the card store (db.js) and the
risk-classification / action logic of the two API handlers (server.js).

Modelling conventions:
- JS numbers used for coordinates and distances are modelled as ℚ.
- Timestamps are modelled as absolute instants in milliseconds (ℤ), the value
  of a JS Date subtraction; ISO-string parsing is the job of the Date library.
- A JS value that may be null/undefined is an Option.
- The haversine distance lives in utils.js, which is an external collaborator
  of the embedded core; it is passed in as an explicit function parameter
  dist : ℚ → ℚ → ℚ → ℚ → ℚ.  Where server.js feeds a null coordinate into it,
  JS ToNumber coerces null to 0 inside the arithmetic, so the embedding
  applies dist to (coordinate.getD 0).
- The nanoid() event id is modelled as a caller-supplied ℕ.
- The ipapi.co geolocation fallback and the alert e-mails are excluded I/O
  collaborators: the observation arrives already resolved (or not), and
  e-mail dispatch has no effect on state or responses.
-/

namespace CardFraud

/-- Card status: active / frozen / blocked (server.js, db.js). -/
inductive Status where
  | active
  | frozen
  | blocked
deriving DecidableEq

/-- Risk levels produced by the classifier (server.js lines 60-80). -/
inductive Risk where
  | LOW
  | MEDIUM
  | HIGH
  | BLOCKED
  | FROZEN
deriving DecidableEq

/-- The lastSeen object {lat, lon, timestamp} (server.js line 92). Coordinates
may be null. -/
structure LastSeen where
  lat : Option ℚ
  lon : Option ℚ
  timestamp : ℤ
deriving DecidableEq

/-- A history entry (server.js lines 83-90 for checks, line 155 for actions).
Action entries carry no coordinates and no risk. -/
structure Event where
  id : ℕ
  lat : Option ℚ
  lon : Option ℚ
  timestamp : ℤ
  risk : Option Risk
  action : String
deriving DecidableEq

/-- A card record (server.js lines 50-56, db.js line 39). -/
structure Card where
  cardNumber : String
  lastSeen : Option LastSeen
  status : Status
  reported : Bool
  history : List Event
deriving DecidableEq

/-- The persisted collection db.cards (db.js). -/
abbrev DB := List Card

/-- The default record created on first reference to a cardNumber
(server.js lines 50-56 and 130, db.js lines 39 and 51). -/
def freshCard (cardNumber : String) : Card :=
  { cardNumber := cardNumber, lastSeen := none, status := Status.active,
    reported := false, history := [] }

/-- db.js getCard: db.cards.find(c => c.cardNumber === cardNumber). -/
def getCard (db : DB) (cardNumber : String) : Option Card :=
  db.find? (fun c => c.cardNumber == cardNumber)

/-- db.js saveCard: findIndex on cardNumber; push if absent, replace in place
if present. -/
def saveCard (db : DB) (card : Card) : DB :=
  match db.findIdx? (fun c => c.cardNumber == card.cardNumber) with
  | none => db ++ [card]
  | some idx => db.set idx card

/-- The history mutation of db.js addHistory lines 41-44: unshift the entry,
then truncate to the first 200 entries when the length exceeds 200. -/
def pushHistory (history : List Event) (entry : Event) : List Event :=
  let h := entry :: history
  if h.length > 200 then h.take 200 else h

/-- db.js addHistory: get (or default) the card, push the entry onto its
history, save. -/
def addHistory (db : DB) (cardNumber : String) (entry : Event) : DB :=
  let card := (getCard db cardNumber).getD (freshCard cardNumber)
  saveCard db { card with history := pushHistory card.history entry }

/-- db.js updateLastSeen: get (or default) the card, overwrite lastSeen,
save.  No comparison with the stored timestamp is made. -/
def updateLastSeen (db : DB) (cardNumber : String) (lastSeen : LastSeen) : DB :=
  let card := (getCard db cardNumber).getD (freshCard cardNumber)
  saveCard db { card with lastSeen := some lastSeen }

/-- db.js getAllCards: returns db.cards as stored. -/
def getAllCards (db : DB) : List Card :=
  db

/-- server.js mask: strip whitespace; "****" when at most 4 characters remain,
otherwise "**** **** **** " followed by the last 4 characters. -/
def mask (pan : String) : String :=
  if pan = "" then ""
  else
    let s := String.mk (pan.data.filter (fun c => !c.isWhitespace))
    if s.length ≤ 4 then "****"
    else "**** **** **** " ++ String.mk (s.data.drop (s.data.length - 4))

/-- Number(x.toFixed(2)): rounding to 2 decimal places (server.js lines
67-68).  toFixed rounds to the nearest hundredth, ties picking the larger
value; for the nonnegative distances and hours fed to it this is
⌊x·100 + 1/2⌋ / 100. -/
def toFixed2 (x : ℚ) : ℚ :=
  ((Rat.floor (x * 100 + 1 / 2) : ℤ) : ℚ) / 100

/-- The details object of a check response: either the computed
distance_km / hours_since_last pair, or the no-prior-location note
(server.js lines 61-76). -/
inductive Details where
  | computed (distance_km : ℚ) (hours_since_last : ℚ)
  | note (s : String)
deriving DecidableEq

/-- Risk computation and details of server.js lines 60-76, before the status
override.  The branch is taken only when lastSeen is present and both
CURRENT coordinates are non-null; the prior coordinates are fed to the
haversine as-is, a null prior coordinate coercing to 0 in its arithmetic. -/
def riskAndDetails (dist : ℚ → ℚ → ℚ → ℚ → ℚ) (lastSeen : Option LastSeen)
    (curLat curLon : Option ℚ) (now : ℤ) : Risk × Details :=
  match lastSeen, curLat, curLon with
  | some ls, some la, some lo =>
      let distKm := dist (ls.lat.getD 0) (ls.lon.getD 0) la lo
      let diffHours : ℚ := |(((now - ls.timestamp : ℤ) : ℚ) / (1000 * 60 * 60))|
      let risk :=
        if distKm > 500 ∧ diffHours < 6 then Risk.HIGH
        else if distKm > 100 ∧ diffHours < 24 then Risk.MEDIUM
        else Risk.LOW
      (risk, Details.computed (toFixed2 distKm) (toFixed2 diffHours))
  | _, _, _ =>
      (Risk.LOW, Details.note "No previous location for this card (first time or missing).")

/-- The status override of server.js lines 79-80, applied to the computed
risk. -/
def overrideRisk (status : Status) (r : Risk) : Risk :=
  let r1 := if status = Status.blocked then Risk.BLOCKED else r
  if status = Status.frozen then Risk.FROZEN else r1

/-- The JSON payload of a successful POST /api/check (server.js lines
105-114). -/
structure CheckResponse where
  maskedCardNumber : String
  status : Status
  reported : Bool
  lastSeen : Option LastSeen
  risk : Risk
  details : Details
deriving DecidableEq

/-- POST /api/check (server.js lines 24-119): load or default the card,
classify, override by status, append the checked event, overwrite lastSeen,
and answer with the masked card and the risk.  Returns the store after the
call together with the response (or the 400 error). -/
def checkCard (dist : ℚ → ℚ → ℚ → ℚ → ℚ) (db : DB) (cardNumber : String)
    (curLat curLon : Option ℚ) (now : ℤ) (eventId : ℕ) :
    DB × Except String CheckResponse :=
  if cardNumber = "" then (db, Except.error "cardNumber is required")
  else
    let card := (getCard db cardNumber).getD (freshCard cardNumber)
    let rd := riskAndDetails dist card.lastSeen curLat curLon now
    let risk := overrideRisk card.status rd.1
    let entry : Event :=
      { id := eventId, lat := curLat, lon := curLon, timestamp := now,
        risk := some risk, action := "checked" }
    let db1 := addHistory db cardNumber entry
    let db2 := updateLastSeen db1 cardNumber
      { lat := curLat, lon := curLon, timestamp := now }
    let saved := (getCard db2 cardNumber).getD card
    (db2, Except.ok
      { maskedCardNumber := mask cardNumber, status := saved.status,
        reported := saved.reported, lastSeen := saved.lastSeen,
        risk := risk, details := rd.2 })

/-- The JSON payload of a successful POST /api/action (server.js line 163). -/
structure ActionResponse where
  message : String
  maskedCardNumber : String
  status : Status
  reported : Bool
deriving DecidableEq

/-- The switch of server.js lines 134-152: the card state after a recognized
action together with its message; none for an unknown action. -/
def applyAction (card : Card) (action : String) : Option (Card × String) :=
  if action = "continue" then some (card, "Transaction allowed (no action taken).")
  else if action = "report" then some ({ card with reported := true }, "Card reported.")
  else if action = "freeze" then some ({ card with status := Status.frozen }, "Card frozen.")
  else if action = "block" then some ({ card with status := Status.blocked }, "Card blocked.")
  else none

/-- POST /api/action (server.js lines 123-168): validate inputs, apply the
action switch, save the card, append the action event, and answer with the
masked card.  The unknown-action branch returns before any store mutation. -/
def actionCard (db : DB) (cardNumber action : String) (eventId : ℕ) (now : ℤ) :
    DB × Except String ActionResponse :=
  if cardNumber = "" ∨ action = "" then
    (db, Except.error "cardNumber and action required")
  else
    let card := (getCard db cardNumber).getD (freshCard cardNumber)
    match applyAction card action with
    | none => (db, Except.error "unknown action")
    | some (card1, message) =>
        let db1 := saveCard db card1
        let db2 := addHistory db1 cardNumber
          { id := eventId, lat := none, lon := none, timestamp := now,
            risk := none, action := action }
        (db2, Except.ok
          { message := message, maskedCardNumber := mask cardNumber,
            status := card1.status, reported := card1.reported })

/-! Concrete sample inputs used to evaluate the operations on closed goals.
dist600 is a stand-in for the external haversine of utils.js: the store and
classifier are parametric in it, and the facts evaluated below depend only on
which branch the handler takes, never on the numeric distance formula. -/

def dist600 : ℚ → ℚ → ℚ → ℚ → ℚ :=
  fun _ _ _ _ => 600

/-- The history entry appended by POST /api/action (server.js line 155):
id, timestamp and the action name only. -/
def actionEvent (e : ℕ) (t : ℤ) (a : String) : Event :=
  { id := e, lat := none, lon := none, timestamp := t, risk := none, action := a }

def ev0 : Event :=
  { id := 0, lat := none, lon := none, timestamp := 0, risk := none, action := "checked" }

def ev1 : Event :=
  { id := 1, lat := none, lon := none, timestamp := 0, risk := none, action := "checked" }

/-- A card whose stored lastSeen has unresolved (null) coordinates, as
updateLastSeen records after a check without coordinates. -/
def cardNull : Card :=
  { cardNumber := "4111", lastSeen := some ⟨none, none, 0⟩,
    status := Status.active, reported := false, history := [] }

/-- A card whose stored lastSeen carries timestamp 100. -/
def cardOld : Card :=
  { cardNumber := "4112", lastSeen := some ⟨some 0, some 0, 100⟩,
    status := Status.active, reported := false, history := [] }

/-- A blocked card with a comparable stored location. -/
def cardBlk : Card :=
  { cardNumber := "9999", lastSeen := some ⟨some 0, some 0, 0⟩,
    status := Status.blocked, reported := false, history := [] }

/-- A card stored under a full-length card number. -/
def cardRaw : Card :=
  { cardNumber := "4111111111111111", lastSeen := none,
    status := Status.active, reported := false, history := [] }

def cardA : Card :=
  { cardNumber := "1000", lastSeen := none, status := Status.active,
    reported := false, history := [] }

def cardB : Card :=
  { cardNumber := "2000", lastSeen := none, status := Status.frozen,
    reported := true, history := [ev0] }

/-! Basic lemmas about the store operations. -/

theorem getCard_nil (n : String) : getCard [] n = none :=
  rfl

theorem getCard_cons (a : Card) (db : DB) (n : String) :
    getCard (a :: db) n = if a.cardNumber = n then some a else getCard db n := by
  by_cases h : a.cardNumber = n
  · simp [getCard, List.find?_cons, h]
  · simp [getCard, List.find?_cons, h]

theorem saveCard_nil (c : Card) : saveCard [] c = [c] :=
  rfl

theorem saveCard_cons (a : Card) (db : DB) (c : Card) :
    saveCard (a :: db) c =
      if a.cardNumber = c.cardNumber then c :: db else a :: saveCard db c := by
  by_cases h : a.cardNumber = c.cardNumber
  · simp [saveCard, List.findIdx?_cons, h]
  · simp only [saveCard, List.findIdx?_cons, List.findIdx?_succ, h, beq_iff_eq,
      if_false, if_neg, Bool.false_eq_true]
    cases hf : db.findIdx? (fun x => x.cardNumber == c.cardNumber) with
    | none => simp
    | some i => simp [List.set_cons_succ]

theorem getCard_some_cardNumber {db : DB} {n : String} {c : Card}
    (h : getCard db n = some c) : c.cardNumber = n := by
  have h1 : db.find? (fun x => x.cardNumber == n) = some c := h
  have h2 := List.find?_some h1
  simpa using h2

theorem mem_of_getCard {db : DB} {n : String} {c : Card}
    (h : getCard db n = some c) : c ∈ db :=
  List.mem_of_find?_eq_some h

theorem getCard_saveCard_self (db : DB) (c : Card) :
    getCard (saveCard db c) c.cardNumber = some c := by
  induction db with
  | nil => simp [saveCard_nil, getCard_cons]
  | cons a db ih =>
      rw [saveCard_cons]
      by_cases h : a.cardNumber = c.cardNumber
      · simp [h, getCard_cons]
      · simp [h, getCard_cons, ih]

theorem getCard_saveCard_self' {db : DB} {c : Card} {n : String}
    (h : c.cardNumber = n) : getCard (saveCard db c) n = some c := by
  subst h
  exact getCard_saveCard_self db c

theorem getCard_saveCard_other {m : String} (db : DB) (c : Card)
    (h : m ≠ c.cardNumber) : getCard (saveCard db c) m = getCard db m := by
  induction db with
  | nil => simp [saveCard_nil, getCard_cons, getCard_nil, if_neg (Ne.symm h)]
  | cons a db ih =>
      rw [saveCard_cons]
      by_cases hac : a.cardNumber = c.cardNumber
      · rw [if_pos hac, getCard_cons, getCard_cons, if_neg (Ne.symm h),
          if_neg (hac ▸ Ne.symm h)]
      · rw [if_neg hac, getCard_cons, getCard_cons, ih]

theorem mem_saveCard {x : Card} {db : DB} {c : Card} (h : x ∈ saveCard db c) :
    x ∈ db ∨ x = c := by
  induction db with
  | nil =>
      rw [saveCard_nil, List.mem_singleton] at h
      exact Or.inr h
  | cons a db ih =>
      rw [saveCard_cons] at h
      by_cases hac : a.cardNumber = c.cardNumber
      · rw [if_pos hac] at h
        rcases List.mem_cons.mp h with h1 | h1
        · exact Or.inr h1
        · exact Or.inl (List.mem_cons_of_mem _ h1)
      · rw [if_neg hac] at h
        rcases List.mem_cons.mp h with h1 | h1
        · exact Or.inl (h1 ▸ List.mem_cons_self _ _)
        · rcases ih h1 with h2 | h2
          · exact Or.inl (List.mem_cons_of_mem _ h2)
          · exact Or.inr h2

theorem card_getD_cardNumber (db : DB) (n : String) :
    ((getCard db n).getD (freshCard n)).cardNumber = n := by
  cases h : getCard db n with
  | none => rfl
  | some c => simpa using getCard_some_cardNumber h

theorem getCard_addHistory_self (db : DB) (n : String) (entry : Event) :
    getCard (addHistory db n entry) n =
      some { (getCard db n).getD (freshCard n) with
             history := pushHistory ((getCard db n).getD (freshCard n)).history entry } := by
  unfold addHistory
  exact getCard_saveCard_self' (by simpa using card_getD_cardNumber db n)

theorem getCard_updateLastSeen_self (db : DB) (n : String) (ls : LastSeen) :
    getCard (updateLastSeen db n ls) n =
      some { (getCard db n).getD (freshCard n) with lastSeen := some ls } := by
  unfold updateLastSeen
  exact getCard_saveCard_self' (by simpa using card_getD_cardNumber db n)

theorem getCard_updateLastSeen_other {m n : String} (db : DB) (ls : LastSeen)
    (h : m ≠ n) : getCard (updateLastSeen db n ls) m = getCard db m := by
  unfold updateLastSeen
  refine getCard_saveCard_other _ _ ?_
  simpa [card_getD_cardNumber] using h

/-! Lemmas about the bounded history. -/

theorem pushHistory_eq_cons (history : List Event) (e : Event) :
    pushHistory history e =
      e :: (if 200 ≤ history.length then history.take 199 else history) := by
  simp only [pushHistory]
  by_cases hl : 200 ≤ history.length
  · rw [if_pos (by simp; omega), if_pos hl]
    rfl
  · rw [if_neg (by simp; omega), if_neg hl]

theorem pushHistory_length_le (history : List Event) (e : Event) :
    (pushHistory history e).length ≤ 200 := by
  rw [pushHistory_eq_cons]
  by_cases hl : 200 ≤ history.length
  · rw [if_pos hl]
    simp
  · rw [if_neg hl]
    simp
    omega

theorem pushHistory_head (history : List Event) (e : Event) :
    (pushHistory history e).head? = some e := by
  rw [pushHistory_eq_cons]
  rfl

theorem pushHistory_full (history : List Event) (e : Event)
    (hl : history.length = 200) : pushHistory history e = (e :: history).dropLast := by
  rw [pushHistory_eq_cons, if_pos (le_of_eq hl.symm), List.dropLast_eq_take]
  simp [hl]

theorem foldl_pushHistory_le (es : List Event) (init : List Event)
    (h : init.length ≤ 200) : (List.foldl pushHistory init es).length ≤ 200 := by
  induction es generalizing init with
  | nil => simpa using h
  | cons e es ih => exact ih _ (pushHistory_length_le init e)

/-! Unfolding lemmas for the two handlers. -/

theorem checkCard_state (dist : ℚ → ℚ → ℚ → ℚ → ℚ) (db : DB) {n : String}
    (cl co : Option ℚ) (now : ℤ) (e : ℕ) (hn : n ≠ "") :
    (checkCard dist db n cl co now e).1 =
      updateLastSeen
        (addHistory db n
          { id := e, lat := cl, lon := co, timestamp := now,
            risk := some (overrideRisk ((getCard db n).getD (freshCard n)).status
              (riskAndDetails dist ((getCard db n).getD (freshCard n)).lastSeen cl co now).1),
            action := "checked" })
        n { lat := cl, lon := co, timestamp := now } := by
  simp [checkCard, hn]

theorem checkCard_getCard (dist : ℚ → ℚ → ℚ → ℚ → ℚ) (db : DB) {n : String}
    (cl co : Option ℚ) (now : ℤ) (e : ℕ) (hn : n ≠ "") :
    getCard (checkCard dist db n cl co now e).1 n =
      some { (getCard db n).getD (freshCard n) with
             history := pushHistory ((getCard db n).getD (freshCard n)).history
               { id := e, lat := cl, lon := co, timestamp := now,
                 risk := some (overrideRisk ((getCard db n).getD (freshCard n)).status
                   (riskAndDetails dist ((getCard db n).getD (freshCard n)).lastSeen cl co now).1),
                 action := "checked" },
             lastSeen := some { lat := cl, lon := co, timestamp := now } } := by
  rw [checkCard_state dist db cl co now e hn, getCard_updateLastSeen_self,
    getCard_addHistory_self]
  rfl

theorem checkCard_response (dist : ℚ → ℚ → ℚ → ℚ → ℚ) (db : DB) {n : String}
    (cl co : Option ℚ) (now : ℤ) (e : ℕ) (hn : n ≠ "") :
    (checkCard dist db n cl co now e).2 =
      Except.ok
        { maskedCardNumber := mask n,
          status := ((getCard db n).getD (freshCard n)).status,
          reported := ((getCard db n).getD (freshCard n)).reported,
          lastSeen := some { lat := cl, lon := co, timestamp := now },
          risk := overrideRisk ((getCard db n).getD (freshCard n)).status
            (riskAndDetails dist ((getCard db n).getD (freshCard n)).lastSeen cl co now).1,
          details := (riskAndDetails dist ((getCard db n).getD (freshCard n)).lastSeen cl co now).2 } := by
  simp only [checkCard, hn, if_neg, ite_false]
  rw [getCard_updateLastSeen_self, getCard_addHistory_self]
  rfl

theorem actionCard_recognized (db : DB) {n : String} (a : String) (e : ℕ) (t : ℤ)
    (card1 : Card) (msg : String) (hn : n ≠ "") (ha : a ≠ "")
    (happ : applyAction ((getCard db n).getD (freshCard n)) a = some (card1, msg))
    (hcn : card1.cardNumber = n) :
    getCard (actionCard db n a e t).1 n =
      some { card1 with
             history := pushHistory card1.history (actionEvent e t a) } ∧
    (actionCard db n a e t).2 =
      Except.ok { message := msg, maskedCardNumber := mask n,
                  status := card1.status, reported := card1.reported } := by
  have h0 : ¬(n = "" ∨ a = "") := by simp [hn, ha]
  simp only [actionCard, h0, if_neg, ite_false, happ]
  constructor
  · rw [getCard_addHistory_self, getCard_saveCard_self' hcn]
    rfl
  · trivial

/-! The claims. -/

/-- Claim C1: with a prior lastSeen and both current coordinates present, the
risk before the status override follows the ordered thresholds with first
match winning — distance > 500 km with elapsed < 6 h gives HIGH, else
distance > 100 km with elapsed < 24 h gives MEDIUM, else LOW — where the
elapsed time is the absolute difference of the two timestamps in hours. -/
theorem claim_C1 (dist : ℚ → ℚ → ℚ → ℚ → ℚ) (ls : LastSeen) (la lo : ℚ)
    (now : ℤ) (d t : ℚ)
    (hd : d = dist (ls.lat.getD 0) (ls.lon.getD 0) la lo)
    (ht : t = |(now : ℚ) - (ls.timestamp : ℚ)| / (1000 * 60 * 60)) :
    (d > 500 → t < 6 →
      (riskAndDetails dist (some ls) (some la) (some lo) now).1 = Risk.HIGH) ∧
    (¬(d > 500 ∧ t < 6) → d > 100 → t < 24 →
      (riskAndDetails dist (some ls) (some la) (some lo) now).1 = Risk.MEDIUM) ∧
    (¬(d > 500 ∧ t < 6) → ¬(d > 100 ∧ t < 24) →
      (riskAndDetails dist (some ls) (some la) (some lo) now).1 = Risk.LOW) := by
  subst hd
  subst ht
  have habs : |((now - ls.timestamp : ℤ) : ℚ) / (1000 * 60 * 60)| =
      |(now : ℚ) - (ls.timestamp : ℚ)| / (1000 * 60 * 60) := by
    rw [abs_div]
    push_cast
    norm_num
  simp only [riskAndDetails, habs]
  refine ⟨fun h1 h2 => ?_, fun h12 h1 h2 => ?_, fun h12 h34 => ?_⟩
  · rw [if_pos ⟨h1, h2⟩]
  · rw [if_neg h12, if_pos ⟨h1, h2⟩]
  · rw [if_neg h12, if_neg h34]

set_option maxRecDepth 4000 in
theorem claim_C1_witness :
    (riskAndDetails dist600 (some ⟨some 0, some 0, 0⟩) (some 0) (some 0) 3600000).1 =
      Risk.HIGH :=
  (claim_C1 dist600 ⟨some 0, some 0, 0⟩ 0 0 3600000 600 1 (by norm_num [dist600])
    (by norm_num)).1 (by norm_num) (by norm_num)

/-- Claim C3: the history of a card never exceeds 200 entries — pushHistory output
is always at most 200 long, any sequence of appends starting from an empty
history stays at most 200 long, and addHistory preserves the bound across the
whole store; history is newest-first (the new entry is the head), and on a
full history of 200 entries the append drops exactly the oldest entry (the
tail), never the newest. -/
theorem claim_C3 :
    (∀ (history : List Event) (e : Event), (pushHistory history e).length ≤ 200) ∧
    (∀ es : List Event, (List.foldl pushHistory [] es).length ≤ 200) ∧
    (∀ (history : List Event) (e : Event), (pushHistory history e).head? = some e) ∧
    (∀ (history : List Event) (e : Event), history.length = 200 →
      pushHistory history e = (e :: history).dropLast) ∧
    (∀ (db : DB) (n : String) (entry : Event),
      (∀ c ∈ db, c.history.length ≤ 200) →
      ∀ c ∈ addHistory db n entry, c.history.length ≤ 200) := by
  refine ⟨pushHistory_length_le, fun es => foldl_pushHistory_le es [] (by simp),
    pushHistory_head, pushHistory_full, ?_⟩
  intro db n entry hdb c hc
  unfold addHistory at hc
  rcases mem_saveCard hc with h | h
  · exact hdb c h
  · subst h
    exact pushHistory_length_le _ _

theorem claim_C3_witness :
    (List.replicate 200 ev0).length = 200 ∧
    pushHistory (List.replicate 200 ev0) ev1 = (ev1 :: List.replicate 200 ev0).dropLast :=
  ⟨by rw [List.length_replicate], claim_C3.2.2.2.1 (List.replicate 200 ev0) ev1
    (by rw [List.length_replicate])⟩

/-- Claim C4: an action request whose action identifier is not continue,
report, freeze or block is rejected with an error, the store is returned
unchanged, and no history entry is appended. -/
theorem claim_C4 (db : DB) (n a : String) (e : ℕ) (t : ℤ)
    (ha : a ≠ "continue" ∧ a ≠ "report" ∧ a ≠ "freeze" ∧ a ≠ "block") :
    (actionCard db n a e t).1 = db ∧ (actionCard db n a e t).2.isOk = false := by
  obtain ⟨h1, h2, h3, h4⟩ := ha
  by_cases h0 : n = "" ∨ a = ""
  · constructor <;> simp [actionCard, h0, Except.isOk, Except.toBool]
  · have happ : applyAction ((getCard db n).getD (freshCard n)) a = none := by
      simp [applyAction, h1, h2, h3, h4]
    constructor <;> simp [actionCard, h0, happ, Except.isOk, Except.toBool]

theorem claim_C4_witness :
    (actionCard [cardA] "1000" "unblock" 3 9).1 = [cardA] ∧
    (actionCard [cardA] "1000" "unblock" 3 9).2.isOk = false :=
  claim_C4 [cardA] "1000" "unblock" 3 9 (by decide)

/-- Claim C10: updateLastSeen on an existing card changes only the lastSeen
field of that card — its other fields are untouched by the record update —
and the record of every other card number in the collection is unchanged. -/
theorem claim_C10 (db : DB) (n : String) (ls : LastSeen) (c : Card)
    (h : getCard db n = some c) :
    getCard (updateLastSeen db n ls) n = some { c with lastSeen := some ls } ∧
    ∀ m, m ≠ n → getCard (updateLastSeen db n ls) m = getCard db m := by
  constructor
  · have h2 := getCard_updateLastSeen_self db n ls
    rw [h] at h2
    simpa using h2
  · intro m hm
    exact getCard_updateLastSeen_other db ls hm

/-- Claim C2: a check on a card whose stored status is blocked returns risk
BLOCKED, and on a frozen card FROZEN, whatever the distance/time computation
yields; in both cases the computed distance_km and hours_since_last details
are still reported whenever the card has a stored lastSeen and both current
coordinates are present. -/
theorem claim_C2 (dist : ℚ → ℚ → ℚ → ℚ → ℚ) (db : DB) (n : String)
    (cl co : Option ℚ) (now : ℤ) (e : ℕ) (c : Card)
    (hn : n ≠ "") (h : getCard db n = some c) :
    ∃ resp : CheckResponse,
      (checkCard dist db n cl co now e).2 = Except.ok resp ∧
      (c.status = Status.blocked → resp.risk = Risk.BLOCKED) ∧
      (c.status = Status.frozen → resp.risk = Risk.FROZEN) ∧
      (∀ ls la lo, c.lastSeen = some ls → cl = some la → co = some lo →
        resp.details = Details.computed
          (toFixed2 (dist (ls.lat.getD 0) (ls.lon.getD 0) la lo))
          (toFixed2 |(((now - ls.timestamp : ℤ) : ℚ) / (1000 * 60 * 60))|)) := by
  refine ⟨_, checkCard_response dist db cl co now e hn, ?_, ?_, ?_⟩
  · intro hb
    simp [h, hb, overrideRisk]
  · intro hf
    simp [h, hf, overrideRisk]
  · intro ls la lo h1 h2 h3
    subst h2
    subst h3
    simp [h, h1, riskAndDetails]

theorem claim_C2_witness :
    Except.map (fun r : CheckResponse => r.risk)
      (checkCard dist600 [cardBlk] "9999" (some 1) (some 1) 3600000 4).2 =
      Except.ok Risk.BLOCKED := by
  obtain ⟨resp, hok, hb, hf, hd⟩ :=
    claim_C2 dist600 [cardBlk] "9999" (some 1) (some 1) 3600000 4 cardBlk
      (by decide) (by decide)
  rw [hok]
  simp [Except.map, hb rfl]

/-- Claim C5, amended: a check with no prior lastSeen, or with either CURRENT
coordinate unresolved, classifies as LOW with the no-prior-location note; the
coordinates of the stored prior observation are NOT checked — an unresolved
prior coordinate is coerced to 0 in the distance computation instead of
forcing the LOW/note branch. -/
theorem claim_C5 (dist : ℚ → ℚ → ℚ → ℚ → ℚ) (now : ℤ) :
    (∀ (lastSeen : Option LastSeen) (cl co : Option ℚ),
      lastSeen = none ∨ cl = none ∨ co = none →
      riskAndDetails dist lastSeen cl co now =
        (Risk.LOW,
         Details.note "No previous location for this card (first time or missing).")) ∧
    (∀ (ls : LastSeen) (la lo : ℚ),
      riskAndDetails dist (some ls) (some la) (some lo) now =
        riskAndDetails dist
          (some { lat := some (ls.lat.getD 0), lon := some (ls.lon.getD 0),
                  timestamp := ls.timestamp })
          (some la) (some lo) now) := by
  constructor
  · intro lastSeen cl co h
    unfold riskAndDetails
    split
    · rcases h with h | h | h <;> simp_all
    · rfl
  · intro ls la lo
    rfl

theorem claim_C5_witness :
    riskAndDetails dist600 none (some 3) (some 4) 99 =
      (Risk.LOW,
       Details.note "No previous location for this card (first time or missing).") :=
  (claim_C5 dist600 99).1 none (some 3) (some 4) (Or.inl rfl)

/-- Counterexample to claim C5 as stated: the stored lastSeen of cardNull has both
coordinates unresolved, yet a check with current coordinates present computes
distance/time details (with the prior coordinates coerced to 0) instead of
the LOW/no-comparable-prior-location note — here with risk HIGH.  The
computed (rather than note) shape of the details does not depend on the
stand-in distance function. -/
theorem claim_C5_cex :
    cardNull.lastSeen = some ⟨none, none, 0⟩ ∧
    (checkCard dist600 [cardNull] "4111" (some 40) (some 40) 3600000 0).2 =
      Except.ok { maskedCardNumber := "****", status := Status.active,
                  reported := false, lastSeen := some ⟨some 40, some 40, 3600000⟩,
                  risk := Risk.HIGH, details := Details.computed 600 1 } ∧
    Risk.HIGH ≠ Risk.LOW := by
  refine ⟨rfl, ?_, by decide⟩
  simp [checkCard, dist600, cardNull, riskAndDetails, overrideRisk, toFixed2, getCard,
    addHistory, updateLastSeen, saveCard, pushHistory, freshCard, mask, Rat.floor_def']
  refine ⟨by decide, ?_, ?_, ?_⟩ <;> norm_num [Rat.floor_def']

/-- Claim C6: each recognized action mutates the card as specified — continue
changes nothing, report sets reported without touching status, freeze sets
status frozen, block sets status blocked — and every one of them, continue
included, appends exactly one event to the history of the card. -/
theorem claim_C6 (db : DB) (n : String) (e : ℕ) (t : ℤ) (c : Card)
    (hn : n ≠ "") (hc : (getCard db n).getD (freshCard n) = c) :
    (getCard (actionCard db n "continue" e t).1 n =
       some { c with history := pushHistory c.history (actionEvent e t "continue") } ∧
     (actionCard db n "continue" e t).2 =
       Except.ok { message := "Transaction allowed (no action taken).",
                   maskedCardNumber := mask n, status := c.status,
                   reported := c.reported }) ∧
    (getCard (actionCard db n "report" e t).1 n =
       some { c with reported := true,
                     history := pushHistory c.history (actionEvent e t "report") } ∧
     (actionCard db n "report" e t).2 =
       Except.ok { message := "Card reported.", maskedCardNumber := mask n,
                   status := c.status, reported := true }) ∧
    (getCard (actionCard db n "freeze" e t).1 n =
       some { c with status := Status.frozen,
                     history := pushHistory c.history (actionEvent e t "freeze") } ∧
     (actionCard db n "freeze" e t).2 =
       Except.ok { message := "Card frozen.", maskedCardNumber := mask n,
                   status := Status.frozen, reported := c.reported }) ∧
    (getCard (actionCard db n "block" e t).1 n =
       some { c with status := Status.blocked,
                     history := pushHistory c.history (actionEvent e t "block") } ∧
     (actionCard db n "block" e t).2 =
       Except.ok { message := "Card blocked.", maskedCardNumber := mask n,
                   status := Status.blocked, reported := c.reported }) := by
  have hcn : c.cardNumber = n := by
    rw [← hc]
    exact card_getD_cardNumber db n
  refine ⟨?_, ?_, ?_, ?_⟩
  · exact actionCard_recognized db "continue" e t c
      "Transaction allowed (no action taken)." hn (by decide)
      (by simp [applyAction, hc]) hcn
  · exact actionCard_recognized db "report" e t { c with reported := true }
      "Card reported." hn (by decide)
      (by simp [applyAction, hc]) (by simpa using hcn)
  · exact actionCard_recognized db "freeze" e t { c with status := Status.frozen }
      "Card frozen." hn (by decide)
      (by simp [applyAction, hc]) (by simpa using hcn)
  · exact actionCard_recognized db "block" e t { c with status := Status.blocked }
      "Card blocked." hn (by decide)
      (by simp [applyAction, hc]) (by simpa using hcn)

theorem claim_C6_witness :
    getCard (actionCard [] "123" "freeze" 5 7).1 "123" =
      some { freshCard "123" with
             status := Status.frozen,
             history := [{ id := 5, lat := none, lon := none, timestamp := 7,
                           risk := none, action := "freeze" }] } := by
  have h := (claim_C6 [] "123" 5 7 (freshCard "123") (by decide) rfl).2.2.1.1
  simpa [pushHistory, freshCard] using h

/-- Claim C7, amended: lastSeen is overwritten by every check, with no
comparison against the stored timestamp — caller-supplied timestamps are
trusted as-is, so a check that is not strictly newer still replaces it. -/
theorem claim_C7 (dist : ℚ → ℚ → ℚ → ℚ → ℚ) (db : DB) (n : String)
    (cl co : Option ℚ) (now : ℤ) (e : ℕ) (hn : n ≠ "") :
    ((getCard (checkCard dist db n cl co now e).1 n).map Card.lastSeen) =
      some (some { lat := cl, lon := co, timestamp := now }) := by
  rw [checkCard_getCard dist db cl co now e hn]
  rfl

theorem claim_C7_witness :
    ((getCard (checkCard dist600 [] "123" none none 5 0).1 "123").map Card.lastSeen) =
      some (some ⟨none, none, 5⟩) :=
  claim_C7 dist600 [] "123" none none 5 0 (by decide)

/-- Counterexample to claim C7 as stated: cardOld stores lastSeen with
timestamp 100; a check carrying the older timestamp 50 — not strictly newer —
still replaces lastSeen with the new observation. -/
theorem claim_C7_cex :
    cardOld.lastSeen = some ⟨some 0, some 0, 100⟩ ∧
    getCard [cardOld] "4112" = some cardOld ∧
    (50 : ℤ) < 100 ∧
    ((getCard (checkCard dist600 [cardOld] "4112" (some 1) (some 1) 50 7).1 "4112").map
      Card.lastSeen) = some (some ⟨some 1, some 1, 50⟩) := by
  refine ⟨rfl, by decide, by decide, ?_⟩
  rw [checkCard_getCard dist600 [cardOld] (some 1) (some 1) 50 7 (by decide)]
  rfl

/-- Claim C8, amended: the check and action responses present the card number
only in masked form, but GET /api/cards returns the stored card records as-is,
cardNumber unmasked. -/
theorem claim_C8 :
    (∀ (dist : ℚ → ℚ → ℚ → ℚ → ℚ) (db : DB) (n : String) (cl co : Option ℚ)
        (now : ℤ) (e : ℕ) (r : CheckResponse),
      (checkCard dist db n cl co now e).2 = Except.ok r →
        r.maskedCardNumber = mask n) ∧
    (∀ (db : DB) (n a : String) (e : ℕ) (t : ℤ) (r : ActionResponse),
      (actionCard db n a e t).2 = Except.ok r → r.maskedCardNumber = mask n) ∧
    (∀ db : DB, getAllCards db = db) := by
  refine ⟨?_, ?_, fun _ => rfl⟩
  · intro dist db n cl co now e r h
    by_cases hn : n = ""
    · rw [hn] at h
      simp [checkCard] at h
    · rw [checkCard_response dist db cl co now e hn] at h
      simp only [Except.ok.injEq] at h
      rw [← h]
  · intro db n a e t r h
    by_cases h0 : n = "" ∨ a = ""
    · simp [actionCard, h0] at h
    · simp only [actionCard, h0, if_neg, ite_false] at h
      cases happ : applyAction ((getCard db n).getD (freshCard n)) a with
      | none =>
          rw [happ] at h
          simp at h
      | some p =>
          rw [happ] at h
          simp only [Except.ok.injEq] at h
          rw [← h]

theorem claim_C8_witness :
    ({ message := "Card blocked.", maskedCardNumber := "****",
       status := Status.blocked, reported := false } : ActionResponse).maskedCardNumber =
      mask "55" :=
  claim_C8.2.1 [] "55" "block" 1 2
    { message := "Card blocked.", maskedCardNumber := "****",
      status := Status.blocked, reported := false } rfl

/-- Counterexample to claim C8 as stated: the card listing the core returns to
its caller (GET /api/cards) carries the stored cardNumber itself, which is not
its masked form. -/
theorem claim_C8_cex :
    (getAllCards [cardRaw]).map Card.cardNumber = ["4111111111111111"] ∧
    mask "4111111111111111" ≠ "4111111111111111" :=
  ⟨rfl, by decide⟩

/-- Claim C9: a check on a blocked (resp. frozen) card still mutates state
exactly as for an active card — a checked event carrying the overridden risk
BLOCKED (resp. FROZEN) is prepended to the history and lastSeen is overwritten
with the new observation. -/
theorem claim_C9 (dist : ℚ → ℚ → ℚ → ℚ → ℚ) (db : DB) (n : String)
    (cl co : Option ℚ) (now : ℤ) (e : ℕ) (c : Card)
    (hn : n ≠ "") (h : getCard db n = some c) :
    (c.status = Status.blocked →
      getCard (checkCard dist db n cl co now e).1 n =
        some { c with
               history := pushHistory c.history
                 { id := e, lat := cl, lon := co, timestamp := now,
                   risk := some Risk.BLOCKED, action := "checked" },
               lastSeen := some { lat := cl, lon := co, timestamp := now } }) ∧
    (c.status = Status.frozen →
      getCard (checkCard dist db n cl co now e).1 n =
        some { c with
               history := pushHistory c.history
                 { id := e, lat := cl, lon := co, timestamp := now,
                   risk := some Risk.FROZEN, action := "checked" },
               lastSeen := some { lat := cl, lon := co, timestamp := now } }) := by
  constructor <;> intro hs <;>
    rw [checkCard_getCard dist db cl co now e hn] <;>
    simp [h, hs, overrideRisk]

theorem claim_C9_witness :
    getCard (checkCard dist600 [cardBlk] "9999" (some 1) (some 1) 3600000 4).1 "9999" =
      some { cardBlk with
             history := [{ id := 4, lat := some 1, lon := some 1, timestamp := 3600000,
                           risk := some Risk.BLOCKED, action := "checked" }],
             lastSeen := some ⟨some 1, some 1, 3600000⟩ } := by
  have h := (claim_C9 dist600 [cardBlk] "9999" (some 1) (some 1) 3600000 4 cardBlk
    (by decide) (by decide)).1 rfl
  simpa [pushHistory, cardBlk] using h

theorem claim_C10_witness :
    getCard (updateLastSeen [cardA, cardB] "1000" ⟨some 1, some 2, 3⟩) "1000" =
      some { cardA with lastSeen := some ⟨some 1, some 2, 3⟩ } ∧
    getCard (updateLastSeen [cardA, cardB] "1000" ⟨some 1, some 2, 3⟩) "2000" =
      getCard [cardA, cardB] "2000" :=
  ⟨(claim_C10 [cardA, cardB] "1000" ⟨some 1, some 2, 3⟩ cardA (by decide)).1,
   (claim_C10 [cardA, cardB] "1000" ⟨some 1, some 2, 3⟩ cardA (by decide)).2 "2000"
     (by decide)⟩

end CardFraud
